import Mathlib

/-!
Verification of the voice-transcriber control logic (src/main.py) against its
specification. The Python program is embedded shallowly: the filesystem is an
association list from paths to file sizes, the recorder and the hotkey listener
are records, fallible operations return Except, and the GUI signal emissions
are logged as an explicit event list.
-/

namespace VoiceTranscriber

/-- The filesystem fragment the program touches: each entry is a path together
with the current size of the file at that path. A path that has no entry does
not exist. -/
abbrev FS := List (String × Nat)

/-- Size of the file at path `p` (os.path.getsize), `none` when the file does
not exist (os.path.exists is false). -/
def FS.getsize : FS → String → Option Nat
  | [], _ => none
  | (q, n) :: t, p => if q = p then some n else FS.getsize t p

/-- Whether the file at `p` exists (os.path.exists). -/
def FS.present (fs : FS) (p : String) : Bool := (FS.getsize fs p).isSome

/-- Delete the file at `p` (os.unlink). -/
def FS.unlink : FS → String → FS
  | [], _ => []
  | (q, n) :: t, p => if q = p then FS.unlink t p else (q, n) :: FS.unlink t p

/-- Create an empty file at `p` (tempfile.NamedTemporaryFile followed by close:
the file exists with size 0). -/
def FS.create (fs : FS) (p : String) : FS := (p, 0) :: FS.unlink fs p

/-- Overwrite the size of the file at `p` with `n`: used to model the external
capture process having written `n` bytes by the time the file is inspected. -/
def FS.setSize (fs : FS) (p : String) (n : Nat) : FS := (p, n) :: FS.unlink fs p

theorem FS.getsize_unlink_self (fs : FS) (p : String) :
    FS.getsize (FS.unlink fs p) p = none := by
  induction fs with
  | nil => rfl
  | cons e t ih =>
    obtain ⟨q, n⟩ := e
    by_cases h : q = p
    · simpa [FS.unlink, h] using ih
    · simpa [FS.unlink, FS.getsize, h] using ih

theorem FS.getsize_setSize_self (fs : FS) (p : String) (n : Nat) :
    FS.getsize (FS.setSize fs p n) p = some n := by
  simp [FS.setSize, FS.getsize]

theorem FS.getsize_create_self (fs : FS) (p : String) :
    FS.getsize (FS.create fs p) p = some 0 := by
  simp [FS.create, FS.getsize]

/-- AudioRecorder (src/main.py lines 41-45): a recording flag, the handle of the
spawned capture process (its pid here), and the path of the temporary output
file. -/
structure AudioRecorder where
  recording : Bool
  process : Option Nat
  output_file : Option String
deriving Repr, DecidableEq

/-- The state built by AudioRecorder.__init__. -/
def AudioRecorder.init : AudioRecorder :=
  { recording := false, process := none, output_file := none }

/-- AudioRecorder.start (src/main.py lines 47-64). The recording flag is set
first, then the temporary file is created (it exists with size 0 once closed),
then the parecord process is spawned. `spawn` is the outcome of Popen: on
failure the exception propagates after the flag and the output file have
already been assigned, and `process` keeps its previous value. The Bool result
records whether the call raised. -/
def AudioRecorder.start (r : AudioRecorder) (fs : FS) (fresh : String)
    (spawn : Except String Nat) : AudioRecorder × FS × Bool :=
  let fs1 := FS.create fs fresh
  match spawn with
  | .ok pid =>
      ({ recording := true, process := some pid, output_file := some fresh }, fs1, false)
  | .error _ =>
      ({ recording := true, process := r.process, output_file := some fresh }, fs1, true)

/-- AudioRecorder.stop (src/main.py lines 66-81). Clears the recording flag,
terminates the process (observable here only as `process := none`), then
inspects the output file: missing or absent file yields the empty string; a
file of size greater than 44 bytes is kept and its path returned; otherwise the
file is unlinked and the empty string returned. -/
def AudioRecorder.stop (r : AudioRecorder) (fs : FS) : AudioRecorder × FS × String :=
  let r1 : AudioRecorder :=
    { recording := false, process := none, output_file := r.output_file }
  match r.output_file with
  | none => (r1, fs, "")
  | some p =>
    match FS.getsize fs p with
    | none => (r1, fs, "")
    | some sz => if sz > 44 then (r1, fs, p) else (r1, FS.unlink fs p, "")

/-- The SignalBridge signals the control flow emits (src/main.py lines 31-38),
with their payloads. GUI-only bookkeeping is not modelled. -/
inductive Sig where
  | recording_started
  | recording_stopped (path : String)
  | transcription_done (text : String)
  | error_occurred (message : String)
  | status_update (message : String)
deriving Repr, DecidableEq

/-- State of the recording control flow: the recorder, the filesystem, and the
paths held by transcription tasks currently in flight (a do_stop thread that
has obtained a non-empty path from AudioRecorder.stop and has not finished its
transcribe call yet). -/
structure Sys where
  recorder : AudioRecorder
  fs : FS
  inflight : List String
deriving Repr, DecidableEq

/-- The state at program start (TranscriberWindow.__init__ builds a fresh
AudioRecorder). -/
def Sys.init : Sys := { recorder := AudioRecorder.init, fs := [], inflight := [] }

/-- TranscriberWindow.toggle_recording (src/main.py lines 204-208) together
with the non-blocking part of the branch it picks. When the recorder's flag is
set it runs stop_recording (lines 219-226) up to just before the blocking
transcribe call: the capture process has written `recSize` bytes by the time
the file is inspected (modelled only when a process is actually running),
AudioRecorder.stop runs, recording_stopped is emitted, and a non-empty path
enters the in-flight list behind a status update. When the flag is clear it
runs start_recording (lines 210-217): `spawn` is the outcome of Popen, a
failure is caught and reported through error_occurred, a success emits
recording_started. -/
def stepToggle (s : Sys) (spawn : Except String Nat) (fresh : String)
    (recSize : Nat) : Sys × List Sig :=
  if s.recorder.recording then
    let fs0 : FS :=
      match s.recorder.output_file, s.recorder.process with
      | some p, some _ =>
          if FS.present s.fs p then FS.setSize s.fs p recSize else s.fs
      | _, _ => s.fs
    let out := AudioRecorder.stop s.recorder fs0
    if out.2.2 = "" then
      ({ recorder := out.1, fs := out.2.1, inflight := s.inflight },
        [Sig.recording_stopped ""])
    else
      ({ recorder := out.1, fs := out.2.1, inflight := out.2.2 :: s.inflight },
        [Sig.recording_stopped out.2.2, Sig.status_update "Transcribing..."])
  else
    let out := AudioRecorder.start s.recorder s.fs fresh spawn
    if out.2.2 then
      ({ recorder := out.1, fs := out.2.1, inflight := s.inflight },
        [Sig.error_occurred ("Failed to start recording: " ++
          (match spawn with | .error e => e | .ok _ => ""))])
    else
      ({ recorder := out.1, fs := out.2.1, inflight := s.inflight },
        [Sig.recording_started])

/-- The tail of do_stop (src/main.py lines 227-234) once the blocking
transcribe call for `path` returns or raises: on success transcription_done is
emitted and the temporary file is unlinked (unlink errors are swallowed by the
inner try), on failure the exception is caught by the outer handler and
error_occurred is emitted with no unlink. A completion for a path that is not
in flight cannot happen and is a no-op. -/
def stepFinish (s : Sys) (path : String) (result : Except String String) :
    Sys × List Sig :=
  if path ∈ s.inflight then
    match result with
    | .ok text =>
        ({ recorder := s.recorder, fs := FS.unlink s.fs path,
           inflight := s.inflight.erase path },
          [Sig.transcription_done text])
    | .error e =>
        ({ recorder := s.recorder, fs := s.fs,
           inflight := s.inflight.erase path },
          [Sig.error_occurred ("Error: " ++ e)])
  else (s, [])

/-- The events the environment can feed the controller: a toggle request (from
the button, the tray or the hotkey) and the completion of an in-flight
transcription task. -/
inductive Ev where
  | toggle (spawn : Except String Nat) (fresh : String) (recSize : Nat)
  | finish (path : String) (result : Except String String)
deriving Repr

/-- One controller step, returning the new state and the emitted signals. -/
def step (s : Sys) : Ev → Sys × List Sig
  | .toggle spawn fresh recSize => stepToggle s spawn fresh recSize
  | .finish path result => stepFinish s path result

/-- Run a sequence of events from a given state. -/
def runFrom (s : Sys) (evs : List Ev) : Sys :=
  evs.foldl (fun s e => (step s e).1) s

/-- Run a sequence of events from the initial state. -/
def runSys (evs : List Ev) : Sys := runFrom Sys.init evs

/-- Whether an HTTP status code is a success code: httpx
Response.raise_for_status raises HTTPStatusError for every other status. -/
def is2xx (status : Nat) : Bool := 200 ≤ status && status < 300

/-- The part of the transcription endpoint response the code reads: the status
code and the optional `text` field of the JSON body. -/
structure TranscriptionHttpResponse where
  status : Nat
  text : Option String
deriving Repr, DecidableEq

/-- GroqAPI.transcribe (src/main.py lines 89-98) as a function of the HTTP
response: raise_for_status raises on any non-2xx status, otherwise
result.get with default returns the `text` field or the empty string. -/
def GroqAPI.transcribe (resp : TranscriptionHttpResponse) : Except String String :=
  if is2xx resp.status then Except.ok (resp.text.getD "")
  else Except.error "TranscriptionError"

/-- One message of a chat-completion payload. -/
structure ChatMessage where
  role : String
  content : String
deriving Repr, DecidableEq

/-- The JSON payload GroqAPI.cleanup posts (src/main.py lines 107-115).
Temperature is a rational here, standing for the JSON number 0.7. -/
structure ChatPayload where
  model : String
  messages : List ChatMessage
  max_tokens : Nat
  temperature : Rat
deriving Repr, DecidableEq

/-- The system prompt of GroqAPI.cleanup (src/main.py line 102), verbatim. -/
def cleanup_system_prompt : String :=
  "Your goal is to take user prompt, which has been transcribed from a voice recording, and clean up the structure if the flow is disjointed,or has too much repetition. Make sure you don't lose any information in the process, everything that was mentioned must end up in the final text, even it its reorganized for clarity. But don't add extra information either, your goal is just to make it more clear. Keep a fairly conversational tone, don't expend on the text by giving example or making plans or anything beyond what the initial recording states."

/-- The payload GroqAPI.cleanup (src/main.py lines 100-115) builds for the
input `text`; `llm_model` is the configured chat model name. -/
def GroqAPI.cleanup_payload (llm_model text : String) : ChatPayload :=
  { model := llm_model
    messages := [
      { role := "system", content := cleanup_system_prompt },
      { role := "user", content := "Here is the user prompt: " ++ text }]
    max_tokens := 2000
    temperature := 0.7 }

/-- One element of the `choices` array of a chat-completion response. -/
structure ChatChoice where
  message : ChatMessage
deriving Repr, DecidableEq

/-- The part of the cleanup endpoint response the code reads. -/
structure ChatHttpResponse where
  status : Nat
  choices : List ChatChoice
deriving Repr, DecidableEq

/-- GroqAPI.cleanup (src/main.py lines 116-119) as a function of the HTTP
response: raise_for_status on non-2xx, then the subscription chain
choices[0].message.content (an empty choices array raises IndexError). -/
def GroqAPI.cleanup_result (resp : ChatHttpResponse) : Except String String :=
  if is2xx resp.status then
    match resp.choices with
    | c :: _ => Except.ok c.message.content
    | [] => Except.error "IndexError"
  else Except.error "HTTPStatusError"

/-- Abstract key identifiers: the modifier keys the normalization in
GlobalHotkeyListener._check_hotkey distinguishes, character keys (pynput
KeyCode with a char), and all remaining special keys. -/
inductive Key where
  | ctrl_l | ctrl_r | ctrl
  | shift_l | shift_r | shift
  | cmd_l | cmd_r | cmd
  | alt_l | alt_r | alt
  | code (c : Char)
  | other (n : Nat)
deriving Repr, DecidableEq

/-- How on_press/on_release (src/main.py lines 325-347) store a key in
current_keys: a key carrying a character is replaced by the KeyCode of its
lower-cased character, every other key is kept as delivered. -/
def pressedKey : Key → Key
  | .code c => .code c.toLower
  | k => k

/-- The per-key normalization inside _check_hotkey (src/main.py lines 349-374):
KeyCode values pass through, left/right/plain control collapse to ctrl_l,
shifts to shift, cmd variants to cmd, everything else passes through. -/
def normalizeKey : Key → Key
  | .ctrl_l => .ctrl_l
  | .ctrl_r => .ctrl_l
  | .ctrl => .ctrl_l
  | .shift_l => .shift
  | .shift_r => .shift
  | .shift => .shift
  | .cmd_l => .cmd
  | .cmd_r => .cmd
  | .cmd => .cmd
  | k => k

/-- Add a key to the pressed set (Python set.add). -/
def insertKey (k : Key) (ks : List Key) : List Key := if k ∈ ks then ks else k :: ks

/-- Remove a key from the pressed set (Python set.discard). -/
def removeKey (k : Key) (ks : List Key) : List Key :=
  ks.filter (fun x => x ≠ k)

/-- The subset test of _check_hotkey: every normalized target key is among the
normalized currently-held keys. -/
def checkHotkey (target current : List Key) : Bool :=
  (target.map normalizeKey).all (fun k => decide (k ∈ current.map normalizeKey))

/-- TOGGLE_HOTKEY (src/main.py line 28): the super key together with the
character h. -/
def TOGGLE_HOTKEY : List Key := [Key.cmd, Key.code 'h']

/-- GlobalHotkeyListener state (src/main.py lines 306-312): the set of
currently depressed keys and the already-fired flag. -/
structure Listener where
  current_keys : List Key
  hotkey_fired : Bool
deriving Repr, DecidableEq

/-- Listener state at startup. -/
def Listener.init : Listener := { current_keys := [], hotkey_fired := false }

/-- GlobalHotkeyListener.on_press (src/main.py lines 325-336): record the key,
then fire hotkey_toggle once when the chord is satisfied and the flag is not
yet set. The Bool result records whether hotkey_toggle was emitted. -/
def Listener.onPress (l : Listener) (k : Key) : Listener × Bool :=
  let keys := insertKey (pressedKey k) l.current_keys
  if checkHotkey TOGGLE_HOTKEY keys then
    if l.hotkey_fired then ({ current_keys := keys, hotkey_fired := l.hotkey_fired }, false)
    else ({ current_keys := keys, hotkey_fired := true }, true)
  else ({ current_keys := keys, hotkey_fired := l.hotkey_fired }, false)

/-- GlobalHotkeyListener.on_release (src/main.py lines 338-347): discard the
key, then clear the fired flag when the chord is no longer satisfied. A
release never emits hotkey_toggle. -/
def Listener.onRelease (l : Listener) (k : Key) : Listener × Bool :=
  let keys := removeKey (pressedKey k) l.current_keys
  if checkHotkey TOGGLE_HOTKEY keys then
    ({ current_keys := keys, hotkey_fired := l.hotkey_fired }, false)
  else ({ current_keys := keys, hotkey_fired := false }, false)

/-- A key press/release notification from the OS listener. -/
inductive KEv where
  | press (k : Key)
  | release (k : Key)
deriving Repr, DecidableEq

/-- Dispatch one notification to the listener. -/
def stepKey (l : Listener) : KEv → Listener × Bool
  | .press k => l.onPress k
  | .release k => l.onRelease k

/-- Run a sequence of notifications from a given listener state. -/
def runKeysFrom (l : Listener) (evs : List KEv) : Listener :=
  evs.foldl (fun l e => (stepKey l e).1) l

/-- Run a sequence of notifications from the startup state. -/
def runKeys (evs : List KEv) : Listener := runKeysFrom Listener.init evs

/-- Whether the toggle event fires at position `i` of the notification
sequence `evs`. -/
def fireAt (evs : List KEv) (i : Nat) : Bool :=
  match evs.drop i with
  | [] => false
  | e :: _ => (stepKey (runKeys (evs.take i)) e).2

/-- How many toggle events fire along the whole notification sequence. -/
def countToggles (evs : List KEv) : Nat :=
  (evs.foldl
    (fun acc e =>
      let out := stepKey acc.1 e
      (out.1, acc.2 + (if out.2 then 1 else 0)))
    (Listener.init, 0)).2

theorem AudioRecorder.stop_state (r : AudioRecorder) (fs : FS) :
    (AudioRecorder.stop r fs).1 =
      { recording := false, process := none, output_file := r.output_file } := by
  unfold AudioRecorder.stop
  split
  · rfl
  · split
    · rfl
    · split <;> rfl

theorem AudioRecorder.start_state (r : AudioRecorder) (fs : FS) (fresh : String)
    (spawn : Except String Nat) :
    (AudioRecorder.start r fs fresh spawn).1.recording = true ∧
    (AudioRecorder.start r fs fresh spawn).1.output_file = some fresh ∧
    (AudioRecorder.start r fs fresh spawn).2.1 = FS.create fs fresh := by
  cases spawn <;> simp [AudioRecorder.start]

theorem checkHotkey_mono {ks ks' : List Key} (t : List Key)
    (h : ∀ x, x ∈ ks → x ∈ ks') (hc : checkHotkey t ks = true) :
    checkHotkey t ks' = true := by
  simp only [checkHotkey, List.all_eq_true, decide_eq_true_eq] at hc ⊢
  intro k hk
  obtain ⟨x, hx, rfl⟩ := List.mem_map.1 (hc k hk)
  exact List.mem_map.2 ⟨x, h x hx, rfl⟩

theorem mem_insertKey_of_mem {x k : Key} {ks : List Key} (h : x ∈ ks) :
    x ∈ insertKey k ks := by
  unfold insertKey
  split
  · exact h
  · exact List.mem_cons_of_mem _ h

theorem mem_of_mem_removeKey {x k : Key} {ks : List Key} (h : x ∈ removeKey k ks) :
    x ∈ ks := (List.mem_filter.1 h).1

theorem stepKey_invariant (l : Listener) (e : KEv)
    (h : l.hotkey_fired = checkHotkey TOGGLE_HOTKEY l.current_keys) :
    (stepKey l e).1.hotkey_fired =
      checkHotkey TOGGLE_HOTKEY (stepKey l e).1.current_keys := by
  cases e with
  | press k =>
    by_cases hc :
        checkHotkey TOGGLE_HOTKEY (insertKey (pressedKey k) l.current_keys) = true
    · cases hf : l.hotkey_fired <;> simp [stepKey, Listener.onPress, hc, hf]
    · have hold : checkHotkey TOGGLE_HOTKEY l.current_keys = false := by
        cases hcase : checkHotkey TOGGLE_HOTKEY l.current_keys
        · rfl
        · exact absurd
            (checkHotkey_mono _ (fun x hx => mem_insertKey_of_mem hx) hcase) hc
      rw [Bool.not_eq_true] at hc
      simp [stepKey, Listener.onPress, hc, h, hold]
  | release k =>
    by_cases hc :
        checkHotkey TOGGLE_HOTKEY (removeKey (pressedKey k) l.current_keys) = true
    · have hold : checkHotkey TOGGLE_HOTKEY l.current_keys = true :=
        checkHotkey_mono _ (fun x hx => mem_of_mem_removeKey hx) hc
      simp [stepKey, Listener.onRelease, hc, h, hold]
    · rw [Bool.not_eq_true] at hc
      simp [stepKey, Listener.onRelease, hc]

theorem runKeysFrom_invariant (evs : List KEv) (l : Listener)
    (h : l.hotkey_fired = checkHotkey TOGGLE_HOTKEY l.current_keys) :
    (runKeysFrom l evs).hotkey_fired =
      checkHotkey TOGGLE_HOTKEY (runKeysFrom l evs).current_keys := by
  induction evs generalizing l with
  | nil => simpa [runKeysFrom] using h
  | cons e t ih => exact ih (stepKey l e).1 (stepKey_invariant l e h)

theorem runKeys_invariant (evs : List KEv) :
    (runKeys evs).hotkey_fired =
      checkHotkey TOGGLE_HOTKEY (runKeys evs).current_keys :=
  runKeysFrom_invariant evs Listener.init (by decide)

theorem onPress_fire_characterization (l : Listener) (k : Key)
    (h : l.hotkey_fired = checkHotkey TOGGLE_HOTKEY l.current_keys) :
    (l.onPress k).2 =
      (!checkHotkey TOGGLE_HOTKEY l.current_keys &&
        checkHotkey TOGGLE_HOTKEY (insertKey (pressedKey k) l.current_keys)) := by
  by_cases hc :
      checkHotkey TOGGLE_HOTKEY (insertKey (pressedKey k) l.current_keys) = true
  · cases hf : l.hotkey_fired <;>
      simp [Listener.onPress, hc, hf, h.symm.trans hf]
  · rw [Bool.not_eq_true] at hc
    simp [Listener.onPress, hc]

theorem stepKey_fire_not_sat (l : Listener) (e : KEv)
    (h : l.hotkey_fired = checkHotkey TOGGLE_HOTKEY l.current_keys)
    (hf : (stepKey l e).2 = true) :
    checkHotkey TOGGLE_HOTKEY l.current_keys = false := by
  cases e with
  | press k =>
    rw [stepKey, onPress_fire_characterization l k h, Bool.and_eq_true] at hf
    simpa using hf.1
  | release k =>
    rw [stepKey] at hf
    unfold Listener.onRelease at hf
    by_cases hc :
        checkHotkey TOGGLE_HOTKEY (removeKey (pressedKey k) l.current_keys) = true
    · simp [hc] at hf
    · rw [Bool.not_eq_true] at hc
      simp [hc] at hf

theorem step_preserves_output_file (s : Sys) (e : Ev)
    (h : s.recorder.output_file.isSome = true) :
    (step s e).1.recorder.output_file.isSome = true := by
  cases e with
  | toggle spawn fresh recSize =>
    rw [step]
    unfold stepToggle
    by_cases hr : s.recorder.recording = true
    · rw [if_pos hr]
      dsimp only
      repeat' split
      all_goals simp [AudioRecorder.stop_state, h]
    · rw [if_neg hr]
      cases spawn with
      | ok pid => simp [AudioRecorder.start]
      | error e => simp [AudioRecorder.start]
  | finish path result =>
    rw [step]
    unfold stepFinish
    split
    · cases result <;> simpa using h
    · simpa using h

/-- C4: for every recording session whose captured file has size at most 44
bytes (at most the minimal WAV header), AudioRecorder.stop returns the empty
string and the file no longer exists after stop returns. -/
theorem C4_stop_discards_small_file (r : AudioRecorder) (fs : FS) (p : String)
    (sz : Nat) (hfile : r.output_file = some p)
    (hsz : FS.getsize fs p = some sz) (h44 : sz ≤ 44) :
    (AudioRecorder.stop r fs).2.2 = "" ∧
    FS.present (AudioRecorder.stop r fs).2.1 p = false := by
  have hlt : ¬ sz > 44 := by omega
  simp [AudioRecorder.stop, hfile, hsz, hlt, FS.present, FS.getsize_unlink_self]

theorem C4_witness :
    ({ recording := true, process := some 1, output_file := some "/tmp/voice_x.wav" }
        : AudioRecorder).output_file = some "/tmp/voice_x.wav" ∧
    FS.getsize [("/tmp/voice_x.wav", 44)] "/tmp/voice_x.wav" = some 44 ∧ 44 ≤ 44 ∧
    ((AudioRecorder.stop
        { recording := true, process := some 1, output_file := some "/tmp/voice_x.wav" }
        [("/tmp/voice_x.wav", 44)]).2.2 = "" ∧
      FS.present (AudioRecorder.stop
        { recording := true, process := some 1, output_file := some "/tmp/voice_x.wav" }
        [("/tmp/voice_x.wav", 44)]).2.1 "/tmp/voice_x.wav" = false) :=
  ⟨by decide, by decide, by decide,
    C4_stop_discards_small_file _ _ "/tmp/voice_x.wav" 44 (by decide) (by decide)
      (by decide)⟩

/-- C5: for every recording session whose captured file has size greater than
44 bytes, AudioRecorder.stop returns that file's path and the file still
exists, with the same size, immediately after stop returns. -/
theorem C5_stop_keeps_large_file (r : AudioRecorder) (fs : FS) (p : String)
    (sz : Nat) (hfile : r.output_file = some p)
    (hsz : FS.getsize fs p = some sz) (h44 : 44 < sz) :
    (AudioRecorder.stop r fs).2.2 = p ∧
    FS.getsize (AudioRecorder.stop r fs).2.1 p = some sz := by
  simp [AudioRecorder.stop, hfile, hsz, h44]

theorem C5_witness :
    ({ recording := true, process := some 1, output_file := some "/tmp/voice_y.wav" }
        : AudioRecorder).output_file = some "/tmp/voice_y.wav" ∧
    FS.getsize [("/tmp/voice_y.wav", 32000)] "/tmp/voice_y.wav" = some 32000 ∧
    44 < 32000 ∧
    ((AudioRecorder.stop
        { recording := true, process := some 1, output_file := some "/tmp/voice_y.wav" }
        [("/tmp/voice_y.wav", 32000)]).2.2 = "/tmp/voice_y.wav" ∧
      FS.getsize (AudioRecorder.stop
        { recording := true, process := some 1, output_file := some "/tmp/voice_y.wav" }
        [("/tmp/voice_y.wav", 32000)]).2.1 "/tmp/voice_y.wav" = some 32000) :=
  ⟨by decide, by decide, by decide,
    C5_stop_keeps_large_file _ _ "/tmp/voice_y.wav" 32000 (by decide) (by decide)
      (by decide)⟩

/-- C10: AudioRecorder.stop called when no recording was ever started (no
output file recorded), or when the recorded output file does not exist on
disk, returns the empty string without raising, leaves the filesystem
untouched, and leaves the recorder with the flag cleared, no process handle
and the output_file field unchanged. -/
theorem C10_stop_without_capture_is_safe (r : AudioRecorder) (fs : FS)
    (h : r.output_file = none ∨
      ∃ p, r.output_file = some p ∧ FS.getsize fs p = none) :
    (AudioRecorder.stop r fs).2.2 = "" ∧
    (AudioRecorder.stop r fs).2.1 = fs ∧
    (AudioRecorder.stop r fs).1 =
      { recording := false, process := none, output_file := r.output_file } := by
  rcases h with h | ⟨p, hp, hg⟩
  · simp [AudioRecorder.stop, h]
  · simp [AudioRecorder.stop, hp, hg]

theorem C10_witness :
    (AudioRecorder.init.output_file = none ∨
      ∃ p, AudioRecorder.init.output_file = some p ∧
        FS.getsize ([] : FS) p = none) ∧
    ((AudioRecorder.stop AudioRecorder.init []).2.2 = "" ∧
      (AudioRecorder.stop AudioRecorder.init []).2.1 = [] ∧
      (AudioRecorder.stop AudioRecorder.init []).1 =
        { recording := false, process := none,
          output_file := AudioRecorder.init.output_file }) :=
  ⟨Or.inl (by decide),
    C10_stop_without_capture_is_safe AudioRecorder.init [] (Or.inl (by decide))⟩

/-- C6: for every HTTP response to transcribe, a non-2xx status makes the call
fail, a 2xx response whose body lacks the text field yields the empty string
without failing, and a 2xx response with a text field yields that field's
value. -/
theorem C6_transcribe_response_cases (resp : TranscriptionHttpResponse) :
    (is2xx resp.status = false →
      GroqAPI.transcribe resp = Except.error "TranscriptionError") ∧
    (is2xx resp.status = true → resp.text = none →
      GroqAPI.transcribe resp = Except.ok "") ∧
    (∀ t, is2xx resp.status = true → resp.text = some t →
      GroqAPI.transcribe resp = Except.ok t) := by
  refine ⟨fun h => ?_, fun h ht => ?_, fun t h ht => ?_⟩
  · simp [GroqAPI.transcribe, h]
  · simp [GroqAPI.transcribe, h, ht]
  · simp [GroqAPI.transcribe, h, ht]

theorem C6_witness :
    GroqAPI.transcribe { status := 404, text := none } =
      Except.error "TranscriptionError" ∧
    GroqAPI.transcribe { status := 200, text := none } = Except.ok "" ∧
    GroqAPI.transcribe { status := 200, text := some "hello world" } =
      Except.ok "hello world" :=
  ⟨(C6_transcribe_response_cases { status := 404, text := none }).1 (by decide),
    (C6_transcribe_response_cases { status := 200, text := none }).2.1
      (by decide) rfl,
    (C6_transcribe_response_cases { status := 200, text := some "hello world" }).2.2
      "hello world" (by decide) rfl⟩

/-- C9: for every input text, the cleanup payload holds exactly two messages,
the fixed system prompt and a user message whose content is the literal prefix
followed by the input text, with max_tokens 2000 and temperature 0.7; on a
2xx response the first element of choices yields the returned content. -/
theorem C9_cleanup_payload_shape (llm_model text : String)
    (resp : ChatHttpResponse) :
    (GroqAPI.cleanup_payload llm_model text).messages =
      [{ role := "system", content := cleanup_system_prompt },
       { role := "user", content := "Here is the user prompt: " ++ text }] ∧
    (GroqAPI.cleanup_payload llm_model text).messages.length = 2 ∧
    (GroqAPI.cleanup_payload llm_model text).max_tokens = 2000 ∧
    (GroqAPI.cleanup_payload llm_model text).temperature = 7 / 10 ∧
    (∀ c rest, is2xx resp.status = true → resp.choices = c :: rest →
      GroqAPI.cleanup_result resp = Except.ok c.message.content) := by
  refine ⟨rfl, rfl, rfl, by norm_num [GroqAPI.cleanup_payload], ?_⟩
  intro c rest h hchoices
  simp [GroqAPI.cleanup_result, h, hchoices]

theorem C9_witness :
    (GroqAPI.cleanup_payload "llama-3.3-70b-versatile" "um so basically").messages =
      [{ role := "system", content := cleanup_system_prompt },
       { role := "user",
         content := "Here is the user prompt: " ++ "um so basically" }] ∧
    GroqAPI.cleanup_result
      { status := 200,
        choices := [{ message := { role := "assistant", content := "I think." } }] } =
      Except.ok "I think." :=
  ⟨(C9_cleanup_payload_shape "llama-3.3-70b-versatile" "um so basically"
      { status := 200, choices := [] }).1,
    (C9_cleanup_payload_shape "llama-3.3-70b-versatile" "um so basically"
      { status := 200,
        choices := [{ message := { role := "assistant", content := "I think." } }]
      }).2.2.2.2
      { message := { role := "assistant", content := "I think." } } []
      (by decide) rfl⟩

/-- C1 amended: a toggle issued while a transcription task is in flight is
treated as a toggle from Idle, because the recorder's flag is already false by
then: with a successful spawn it starts a new capture (recording_started is
emitted and the flag turns true) while the first task stays in flight, and
stopping the new capture with more than 44 bytes recorded places a second
transcription task in flight concurrently with the first. -/
theorem C1_toggle_while_transcribing_starts_new_capture
    (s : Sys) (pid pid2 : Nat) (fresh fresh2 : String) (recSize recSize2 : Nat)
    (hrec : s.recorder.recording = false) (hin : s.inflight ≠ [])
    (hfresh : fresh ≠ "") (h44 : 44 < recSize2) :
    (stepToggle s (Except.ok pid) fresh recSize).2 = [Sig.recording_started] ∧
    (stepToggle s (Except.ok pid) fresh recSize).1.recorder.recording = true ∧
    (stepToggle s (Except.ok pid) fresh recSize).1.inflight = s.inflight ∧
    (stepToggle (stepToggle s (Except.ok pid) fresh recSize).1
        (Except.ok pid2) fresh2 recSize2).1.inflight = fresh :: s.inflight := by
  have h1 : stepToggle s (Except.ok pid) fresh recSize =
      ({ recorder :=
          { recording := true, process := some pid, output_file := some fresh },
         fs := FS.create s.fs fresh, inflight := s.inflight },
        [Sig.recording_started]) := by
    simp [stepToggle, hrec, AudioRecorder.start]
  refine ⟨by rw [h1], by rw [h1], by rw [h1], ?_⟩
  rw [h1]
  simp [stepToggle, AudioRecorder.stop, FS.present, FS.getsize_create_self,
    FS.getsize_setSize_self, h44, hfresh]

theorem C1_witness :
    (({ recorder :=
          { recording := false, process := none, output_file := some "/tmp/a.wav" },
        fs := [("/tmp/a.wav", 32000)], inflight := ["/tmp/a.wav"] } : Sys).recorder.recording
          = false ∧
      (["/tmp/a.wav"] : List String) ≠ [] ∧ "/tmp/b.wav" ≠ "" ∧ 44 < 16000) ∧
    ((stepToggle
        { recorder :=
            { recording := false, process := none, output_file := some "/tmp/a.wav" },
          fs := [("/tmp/a.wav", 32000)], inflight := ["/tmp/a.wav"] }
        (Except.ok 2) "/tmp/b.wav" 0).2 = [Sig.recording_started] ∧
      (stepToggle
        { recorder :=
            { recording := false, process := none, output_file := some "/tmp/a.wav" },
          fs := [("/tmp/a.wav", 32000)], inflight := ["/tmp/a.wav"] }
        (Except.ok 2) "/tmp/b.wav" 0).1.recorder.recording = true ∧
      (stepToggle
        { recorder :=
            { recording := false, process := none, output_file := some "/tmp/a.wav" },
          fs := [("/tmp/a.wav", 32000)], inflight := ["/tmp/a.wav"] }
        (Except.ok 2) "/tmp/b.wav" 0).1.inflight = ["/tmp/a.wav"] ∧
      (stepToggle
        (stepToggle
          { recorder :=
              { recording := false, process := none, output_file := some "/tmp/a.wav" },
            fs := [("/tmp/a.wav", 32000)], inflight := ["/tmp/a.wav"] }
          (Except.ok 2) "/tmp/b.wav" 0).1
        (Except.ok 3) "" 16000).1.inflight = "/tmp/b.wav" :: ["/tmp/a.wav"]) :=
  ⟨⟨by decide, by decide, by decide, by decide⟩,
    C1_toggle_while_transcribing_starts_new_capture _ 2 3 "/tmp/b.wav" "" 0 16000
      (by decide) (by decide) (by decide) (by decide)⟩

/-- The event trace that puts one transcription task in flight: a successful
start followed by a stop that finds 32000 recorded bytes. -/
def c1Trace : List Ev :=
  [Ev.toggle (Except.ok 1) "/tmp/a.wav" 0, Ev.toggle (Except.ok 1) "" 32000]

/-- C1 as stated is false: after one start/stop cycle a transcription task is
still in flight and the recorder flag is false, yet a further toggle is not
ignored: it emits recording_started and starts a new capture, and stopping
that capture places a second transcription task in flight next to the first. -/
theorem C1_counterexample :
    (runSys c1Trace).recorder.recording = false ∧
    (runSys c1Trace).inflight = ["/tmp/a.wav"] ∧
    (step (runSys c1Trace) (Ev.toggle (Except.ok 2) "/tmp/b.wav" 0)).2 =
      [Sig.recording_started] ∧
    (step (runSys c1Trace)
      (Ev.toggle (Except.ok 2) "/tmp/b.wav" 0)).1.recorder.recording = true ∧
    (runSys (c1Trace ++ [Ev.toggle (Except.ok 2) "/tmp/b.wav" 0,
        Ev.toggle (Except.ok 2) "" 32000])).inflight =
      ["/tmp/b.wav", "/tmp/a.wav"] := by decide

/-- C2 amended: when the spawn fails on a toggle from Idle the controller does
report the error, but AudioRecorder.start has already set the recording flag
and the output file before raising, so the state is not Idle again: the flag
is true, and a subsequent toggle performs a stop (emitting recording_stopped
with an empty path and deleting the empty temporary file), not a fresh
start. -/
theorem C2_spawn_failure_leaves_recording_true
    (s : Sys) (emsg fresh : String) (recSize : Nat)
    (hrec : s.recorder.recording = false) (hproc : s.recorder.process = none) :
    (stepToggle s (Except.error emsg) fresh recSize).2 =
      [Sig.error_occurred ("Failed to start recording: " ++ emsg)] ∧
    (stepToggle s (Except.error emsg) fresh recSize).1.recorder.recording = true ∧
    (stepToggle s (Except.error emsg) fresh recSize).1.recorder.output_file =
      some fresh ∧
    (∀ spawn2 fresh2 recSize2,
      (stepToggle (stepToggle s (Except.error emsg) fresh recSize).1
          spawn2 fresh2 recSize2).2 = [Sig.recording_stopped ""] ∧
      (stepToggle (stepToggle s (Except.error emsg) fresh recSize).1
          spawn2 fresh2 recSize2).1.recorder.recording = false ∧
      FS.getsize (stepToggle (stepToggle s (Except.error emsg) fresh recSize).1
          spawn2 fresh2 recSize2).1.fs fresh = none) := by
  have h1 : stepToggle s (Except.error emsg) fresh recSize =
      ({ recorder :=
          { recording := true, process := s.recorder.process,
            output_file := some fresh },
         fs := FS.create s.fs fresh, inflight := s.inflight },
        [Sig.error_occurred ("Failed to start recording: " ++ emsg)]) := by
    simp [stepToggle, hrec, AudioRecorder.start]
  refine ⟨by rw [h1], by rw [h1], by rw [h1], ?_⟩
  intro spawn2 fresh2 recSize2
  rw [h1, hproc]
  simp [stepToggle, AudioRecorder.stop, FS.getsize_create_self,
    FS.getsize_unlink_self, Nat.not_lt_zero]

theorem C2_witness :
    (stepToggle Sys.init (Except.error "FileNotFoundError") "/tmp/a.wav" 0).2 =
      [Sig.error_occurred ("Failed to start recording: " ++ "FileNotFoundError")] ∧
    (stepToggle Sys.init
      (Except.error "FileNotFoundError") "/tmp/a.wav" 0).1.recorder.recording = true ∧
    (stepToggle Sys.init
      (Except.error "FileNotFoundError") "/tmp/a.wav" 0).1.recorder.output_file =
        some "/tmp/a.wav" ∧
    ((stepToggle (stepToggle Sys.init
          (Except.error "FileNotFoundError") "/tmp/a.wav" 0).1
        (Except.ok 5) "/tmp/c.wav" 99).2 = [Sig.recording_stopped ""] ∧
      (stepToggle (stepToggle Sys.init
          (Except.error "FileNotFoundError") "/tmp/a.wav" 0).1
        (Except.ok 5) "/tmp/c.wav" 99).1.recorder.recording = false ∧
      FS.getsize (stepToggle (stepToggle Sys.init
          (Except.error "FileNotFoundError") "/tmp/a.wav" 0).1
        (Except.ok 5) "/tmp/c.wav" 99).1.fs "/tmp/a.wav" = none) :=
  ⟨(C2_spawn_failure_leaves_recording_true Sys.init "FileNotFoundError"
      "/tmp/a.wav" 0 rfl rfl).1,
    (C2_spawn_failure_leaves_recording_true Sys.init "FileNotFoundError"
      "/tmp/a.wav" 0 rfl rfl).2.1,
    (C2_spawn_failure_leaves_recording_true Sys.init "FileNotFoundError"
      "/tmp/a.wav" 0 rfl rfl).2.2.1,
    (C2_spawn_failure_leaves_recording_true Sys.init "FileNotFoundError"
      "/tmp/a.wav" 0 rfl rfl).2.2.2 (Except.ok 5) "/tmp/c.wav" 99⟩

/-- C2 as stated is false: toggling from Idle with a failing spawn reports the
error but leaves the recorder flag true, so the state afterwards is not Idle
and the next toggle performs a stop (emitting recording_stopped), not a fresh
start. -/
theorem C2_counterexample :
    (stepToggle Sys.init
      (Except.error "spawn failed") "/tmp/a.wav" 0).1.recorder.recording = true ∧
    (stepToggle Sys.init (Except.error "spawn failed") "/tmp/a.wav" 0).2 =
      [Sig.error_occurred "Failed to start recording: spawn failed"] ∧
    (stepToggle (stepToggle Sys.init
        (Except.error "spawn failed") "/tmp/a.wav" 0).1
      (Except.ok 9) "/tmp/c.wav" 50).2 = [Sig.recording_stopped ""] := by decide

/-- C3 amended: when the transcription for an in-flight path completes
successfully, transcription_done is published and the temporary file is
unlinked (unlink errors are swallowed); when it fails, an error event is
published and the cycle ends, but the temporary file is not unlinked. -/
theorem C3_unlink_only_on_success (s : Sys) (path : String)
    (hpath : path ∈ s.inflight) :
    (∀ text, (stepFinish s path (Except.ok text)).2 =
        [Sig.transcription_done text] ∧
      (stepFinish s path (Except.ok text)).1.fs = FS.unlink s.fs path ∧
      FS.getsize (stepFinish s path (Except.ok text)).1.fs path = none) ∧
    (∀ emsg, (stepFinish s path (Except.error emsg)).2 =
        [Sig.error_occurred ("Error: " ++ emsg)] ∧
      (stepFinish s path (Except.error emsg)).1.fs = s.fs) := by
  constructor
  · intro text
    simp [stepFinish, hpath, FS.getsize_unlink_self]
  · intro emsg
    simp [stepFinish, hpath]

theorem C3_witness :
    "/tmp/a.wav" ∈
      ({ recorder := AudioRecorder.init, fs := [("/tmp/a.wav", 32000)],
         inflight := ["/tmp/a.wav"] } : Sys).inflight ∧
    ((stepFinish
        { recorder := AudioRecorder.init, fs := [("/tmp/a.wav", 32000)],
          inflight := ["/tmp/a.wav"] } "/tmp/a.wav" (Except.ok "hello world")).2 =
      [Sig.transcription_done "hello world"] ∧
      FS.getsize (stepFinish
        { recorder := AudioRecorder.init, fs := [("/tmp/a.wav", 32000)],
          inflight := ["/tmp/a.wav"] } "/tmp/a.wav"
        (Except.ok "hello world")).1.fs "/tmp/a.wav" = none) ∧
    (stepFinish
      { recorder := AudioRecorder.init, fs := [("/tmp/a.wav", 32000)],
        inflight := ["/tmp/a.wav"] } "/tmp/a.wav" (Except.error "timeout")).1.fs =
      [("/tmp/a.wav", 32000)] :=
  ⟨by decide,
    ⟨((C3_unlink_only_on_success
        { recorder := AudioRecorder.init, fs := [("/tmp/a.wav", 32000)],
          inflight := ["/tmp/a.wav"] } "/tmp/a.wav" (by decide)).1 "hello world").1,
      ((C3_unlink_only_on_success
        { recorder := AudioRecorder.init, fs := [("/tmp/a.wav", 32000)],
          inflight := ["/tmp/a.wav"] } "/tmp/a.wav" (by decide)).1 "hello world").2.2⟩,
    ((C3_unlink_only_on_success
        { recorder := AudioRecorder.init, fs := [("/tmp/a.wav", 32000)],
          inflight := ["/tmp/a.wav"] } "/tmp/a.wav" (by decide)).2 "timeout").2⟩

/-- C3 as stated is false: when transcribe raises for an in-flight 32000-byte
file, the error event is published but the temporary audio file is not
unlinked — it is still on disk with its full size. -/
theorem C3_counterexample :
    (stepFinish
      { recorder := AudioRecorder.init, fs := [("/tmp/a.wav", 32000)],
        inflight := ["/tmp/a.wav"] } "/tmp/a.wav" (Except.error "boom")).2 =
      [Sig.error_occurred "Error: boom"] ∧
    FS.getsize (stepFinish
      { recorder := AudioRecorder.init, fs := [("/tmp/a.wav", 32000)],
        inflight := ["/tmp/a.wav"] } "/tmp/a.wav"
      (Except.error "boom")).1.fs "/tmp/a.wav" = some 32000 := by decide

/-- C8 amended: output_file, once set, is never cleared by any later
controller step: it persists after the session has become inactive and the
captured file has been consumed or discarded, so the recorder does hold a
stale output path and the claimed iff-invariant fails. -/
theorem C8_output_file_persists (s : Sys) (evs : List Ev)
    (h : s.recorder.output_file.isSome = true) :
    (runFrom s evs).recorder.output_file.isSome = true := by
  induction evs generalizing s with
  | nil => simpa [runFrom] using h
  | cons e t ih => exact ih (step s e).1 (step_preserves_output_file s e h)

theorem C8_witness :
    (runFrom
      { recorder :=
          { recording := false, process := none, output_file := some "/tmp/a.wav" },
        fs := [("/tmp/a.wav", 32000)], inflight := ["/tmp/a.wav"] }
      [Ev.finish "/tmp/a.wav" (Except.ok "hi"),
        Ev.toggle (Except.ok 4) "/tmp/b.wav" 0]).recorder.output_file.isSome =
      true :=
  C8_output_file_persists _ _ rfl

/-- The event trace of one start and one stop whose captured file is only 10
bytes and is therefore discarded. -/
def c8Trace : List Ev :=
  [Ev.toggle (Except.ok 1) "/tmp/a.wav" 0, Ev.toggle (Except.ok 1) "" 10]

/-- C8 as stated is false: after a start and a stop that discards a 10-byte
capture, the session is inactive, no file is pending consumption and the file
is gone from disk, yet output_file still holds the stale path. -/
theorem C8_counterexample :
    (runSys c8Trace).recorder.recording = false ∧
    (runSys c8Trace).inflight = [] ∧
    FS.present (runSys c8Trace).fs "/tmp/a.wav" = false ∧
    (runSys c8Trace).recorder.output_file = some "/tmp/a.wav" := by decide

/-- C7: the hotkey listener is edge-triggered. Along every notification
sequence the fired flag coincides with chord satisfaction; a press fires
exactly on the transition from chord-not-satisfied to chord-satisfied (so no
further event fires while the chord stays held, and the flag rearms only once
the chord is no longer fully satisfied); a release never fires; between any
two firings there is a moment at which the chord is not satisfied, giving
exactly one firing per press-through-release cycle; and the full chord
pressed in either member order, with repeats and a left-side super variant,
fires exactly once. -/
theorem C7_hotkey_edge_triggered (evs : List KEv) :
    ((runKeys evs).hotkey_fired =
      checkHotkey TOGGLE_HOTKEY (runKeys evs).current_keys) ∧
    (∀ k, ((runKeys evs).onPress k).2 =
      (!checkHotkey TOGGLE_HOTKEY (runKeys evs).current_keys &&
        checkHotkey TOGGLE_HOTKEY
          (insertKey (pressedKey k) (runKeys evs).current_keys))) ∧
    (∀ k, ((runKeys evs).onRelease k).2 = false) ∧
    (∀ i j, i < j → fireAt evs i = true → fireAt evs j = true →
      ∃ m, i ≤ m ∧ m < j ∧
        checkHotkey TOGGLE_HOTKEY
          (runKeys (evs.take (m + 1))).current_keys = false) ∧
    (countToggles [KEv.press Key.cmd, KEv.press (Key.code 'h'),
        KEv.release (Key.code 'h'), KEv.release Key.cmd] = 1 ∧
      countToggles [KEv.press (Key.code 'h'), KEv.press Key.cmd,
        KEv.release Key.cmd, KEv.release (Key.code 'h')] = 1 ∧
      countToggles [KEv.press Key.cmd_l, KEv.press (Key.code 'H'),
        KEv.press (Key.code 'h'), KEv.press (Key.code 'h'),
        KEv.release Key.cmd_l] = 1) := by
  refine ⟨runKeys_invariant evs,
    fun k => onPress_fire_characterization (runKeys evs) k (runKeys_invariant evs),
    fun k => ?_, ?_, by decide, by decide, by decide⟩
  · unfold Listener.onRelease
    by_cases hc : checkHotkey TOGGLE_HOTKEY
        (removeKey (pressedKey k) (runKeys evs).current_keys) = true
    · simp [hc]
    · rw [Bool.not_eq_true] at hc
      simp [hc]
  · intro i j hij hi hj
    refine ⟨j - 1, by omega, by omega, ?_⟩
    have hj1 : j - 1 + 1 = j := by omega
    rw [hj1]
    unfold fireAt at hj
    cases hdrop : evs.drop j with
    | nil => rw [hdrop] at hj; simp at hj
    | cons e rest =>
      rw [hdrop] at hj
      exact stepKey_fire_not_sat _ e (runKeys_invariant (evs.take j)) hj

/-- A notification sequence that fires the toggle twice: the chord is pressed,
the letter released (the chord is then no longer satisfied) and pressed
again. -/
def c7Evs : List KEv :=
  [KEv.press Key.cmd, KEv.press (Key.code 'h'), KEv.release (Key.code 'h'),
   KEv.press (Key.code 'h')]

theorem C7_witness :
    (1 < 3 ∧ fireAt c7Evs 1 = true ∧ fireAt c7Evs 3 = true) ∧
    (∃ m, 1 ≤ m ∧ m < 3 ∧
      checkHotkey TOGGLE_HOTKEY
        (runKeys (c7Evs.take (m + 1))).current_keys = false) :=
  ⟨⟨by decide, by decide, by decide⟩,
    (C7_hotkey_edge_triggered c7Evs).2.2.2.1 1 3 (by decide) (by decide)
      (by decide)⟩

end VoiceTranscriber
